import Mathlib

/- A shallow embedding of the LDAP client in src/ldapclient.c.  The external
   libldap transport and codec are modelled by oracle parameters: each
   operation receives the transport answers it would obtain from the C
   library, and returns its Python-level result, the request (if any) it
   issued to the transport, and the resulting client state. -/

/-- LDAP result code LDAP_SUCCESS. -/
def LDAP_SUCCESS : Nat := 0

/-- LDAP result code LDAP_NO_SUCH_OBJECT. -/
def LDAP_NO_SUCH_OBJECT : Nat := 32

/-- Search scope LDAP_SCOPE_BASE. -/
def LDAP_SCOPE_BASE : Nat := 0

/-- Search scope LDAP_SCOPE_ONELEVEL. -/
def LDAP_SCOPE_ONELEVEL : Nat := 1

/-- Search scope LDAP_SCOPE_SUBTREE. -/
def LDAP_SCOPE_SUBTREE : Nat := 2

/-- Modelled external collaborator: the diagnostic text libldap attaches to a
result code (ldap_err2string).  Only its dependence on the code matters. -/
def ldap_err2string (rc : Nat) : String := "ldap diagnostic " ++ toString rc

/-- The message shown by LDAPExc_NotConnected errors in ldapclient.c. -/
def notConnectedMsg : String := "Client has to connect to the server first."

/-- A decoded directory entry, as produced by the external entry-construction
collaborator LDAPEntry_FromLDAPMessage; the client only inspects the length
of its attribute list (PyList_Size of the attributes member). -/
structure LDAPEntry where
  attributes : List String
deriving DecidableEq, Repr

/-- One message of a search response stream, classified the way ldap_msgtype
classifies it in the switch of `searching`.  A search-result-entry message
carries the entry the external collaborator decodes from it. -/
inductive LDAPMessage where
  | searchEntry (entry : LDAPEntry)
  | searchReference
  | other
deriving DecidableEq, Repr

/-- The session state of the LDAPClient struct: uri, the `connected` flag and
the `tls` (useStartTLS) flag.  The opaque ld handle is replaced by the
transport oracles each operation takes. -/
structure LDAPClient where
  uri : String
  connected : Bool
  tls : Bool
deriving DecidableEq, Repr

/-- A Python-level exception set via PyErr_SetString, tagged by which
exception object ldapclient.c uses. -/
inductive PyError where
  | notConnected (msg : String)
  | ldapError (msg : String)
  | attributeError (msg : String)
deriving DecidableEq, Repr

/-- The search request `searching` hands to ldap_search_ext_s: base, scope,
the (normalized) filter, the attribute list, attrsonly, the timeval pointer
(none models the NULL pointer) and the sizelimit integer. -/
structure SearchRequest where
  base : String
  scope : Nat
  filter : Option String
  attrs : Option (List String)
  attrsonly : Bool
  timelimit : Option Int
  sizelimit : Int
deriving DecidableEq, Repr

/-- What the transport answers to one ldap_search_ext_s call: the result
code and the decoded message stream in arrival order. -/
structure SearchTransportResponse where
  rc : Nat
  msgs : List LDAPMessage
deriving DecidableEq, Repr

/-- The PyObject returned by `searching`: NULL with no exception set (the
LDAP_NO_SUCH_OBJECT path), NULL with an exception set, a single entry (the
firstonly early return), or a list of entries. -/
inductive SearchingResult where
  | nullNoErr
  | err (e : PyError)
  | single (entry : LDAPEntry)
  | list (entries : List LDAPEntry)
deriving DecidableEq, Repr

/-- The timeval construction of `searching`: a timeval holding `timeout`
seconds if timeout is greater than zero, the NULL pointer otherwise. -/
def timelimitOf (timeout : Int) : Option Int :=
  if 0 < timeout then some timeout else none

/-- The filter normalization of `searching`: a NULL or empty filter string
is passed to the transport as NULL (match-all). -/
def normFilter : Option String → Option String
  | none => none
  | some s => if s.length = 0 then none else some s

/-- The request `searching` issues to ldap_search_ext_s, after filter and
time-limit normalization. -/
def searchRequestOf (base : String) (scope : Nat) (filterstr : Option String)
    (attrs : Option (List String)) (attrsonly : Bool)
    (timeout : Int) (sizelimit : Int) : SearchRequest :=
  { base := base, scope := scope, filter := normFilter filterstr, attrs := attrs,
    attrsonly := attrsonly, timelimit := timelimitOf timeout, sizelimit := sizelimit }

/-- The message-iteration loop of `searching` (ldap_first_message /
ldap_next_message): entries with zero attributes are dropped, a surviving
entry is returned alone when firstonly is set, otherwise appended via
PyList_Append; reference messages and other message types add nothing. -/
def searchLoop (firstonly : Bool) : List LDAPMessage → List LDAPEntry → SearchingResult
  | [], acc => .list acc
  | .searchEntry e :: rest, acc =>
      if e.attributes.length = 0 then searchLoop firstonly rest acc
      else if firstonly = true then .single e
      else searchLoop firstonly rest (acc ++ [e])
  | .searchReference :: rest, acc => searchLoop firstonly rest acc
  | .other :: rest, acc => searchLoop firstonly rest acc

/-- The internal search function `searching` of ldapclient.c.  It builds the
request, issues it, maps LDAP_NO_SUCH_OBJECT to a bare NULL return with no
exception set, any other non-success code to NULL with an LDAPError
exception, and on success runs the message loop.  It returns the issued
request alongside the result so that theorems can speak about what was
sent to the transport. -/
def searching (self : LDAPClient) (base : String) (scope : Nat)
    (filterstr : Option String) (attrs : Option (List String))
    (attrsonly : Bool) (firstonly : Bool) (timeout : Int) (sizelimit : Int)
    (transport : SearchRequest → SearchTransportResponse) :
    SearchingResult × SearchRequest :=
  let req := searchRequestOf base scope filterstr attrs attrsonly timeout sizelimit
  let resp := transport req
  (if resp.rc = LDAP_NO_SUCH_OBJECT then .nullNoErr
   else if resp.rc ≠ LDAP_SUCCESS then .err (.ldapError (ldap_err2string resp.rc))
   else searchLoop firstonly resp.msgs [], req)

/-- LDAPClient_Search.  The C locals `timeout` and `sizelimit` are declared
without an initializer and PyArg_ParseTupleAndKeywords leaves them untouched
when the optional arguments are omitted, so an omitted argument falls back
to the indeterminate stack value, modelled by the garbage parameters.
Returns the searching result, the issued request (none when the transport
was never contacted) and the client state. -/
def LDAPClient_Search (self : LDAPClient) (base : String) (scope : Nat)
    (filterstr : Option String) (attrlist : Option (List String))
    (timeoutArg sizelimitArg : Option Int) (attrsonly : Bool)
    (garbageTimeout garbageSizelimit : Int)
    (transport : SearchRequest → SearchTransportResponse) :
    SearchingResult × Option SearchRequest × LDAPClient :=
  if self.connected = false then (.err (.notConnected notConnectedMsg), none, self)
  else
    let timeout := timeoutArg.getD garbageTimeout
    let sizelimit := sizelimitArg.getD garbageSizelimit
    let out := searching self base scope filterstr attrlist attrsonly false
      timeout sizelimit transport
    (out.1, some out.2, self)

/-- The PyObject LDAPClient_GetEntry returns: NULL with an exception set, a
clean Py_None, a Py_None returned while an exception is still pending (the
path where `searching` failed with an error and GetEntry still maps the NULL
to Py_None), a single entry, or the list object `searching` produced. -/
inductive GetEntryReturn where
  | fail (e : PyError)
  | noneObj
  | noneWithPendingErr (e : PyError)
  | entry (e : LDAPEntry)
  | listObj (l : List LDAPEntry)
deriving DecidableEq, Repr

/-- LDAPClient_GetEntry: requires connected, then runs `searching` with the
given dn as base, scope BASE, NULL filter, NULL attrs, attrsonly 0,
firstonly 1, timeout 0 and sizelimit 0, and maps a NULL result to Py_None. -/
def LDAPClient_GetEntry (self : LDAPClient) (dn : String)
    (transport : SearchRequest → SearchTransportResponse) :
    GetEntryReturn × Option SearchRequest × LDAPClient :=
  if self.connected = false then (.fail (.notConnected notConnectedMsg), none, self)
  else
    let out := searching self dn LDAP_SCOPE_BASE none none false true 0 0 transport
    (match out.1 with
     | .nullNoErr => .noneObj
     | .err e => .noneWithPendingErr e
     | .single e => .entry e
     | .list l => .listObj l, some out.2, self)

/-- The fixed attribute list LDAPClient_GetRootDSE requests. -/
def rootDSEAttrs : List String :=
  ["namingContexts", "altServer", "supportedExtension", "supportedControl",
   "supportedSASLMechanisms", "supportedLDAPVersion"]

/-- LDAPClient_GetRootDSE: requires connected, then runs `searching` with an
empty base, scope BASE, the objectclass match-all filter, the fixed
attribute list, firstonly 1, and returns the result unchanged. -/
def LDAPClient_GetRootDSE (self : LDAPClient)
    (transport : SearchRequest → SearchTransportResponse) :
    SearchingResult × Option SearchRequest × LDAPClient :=
  if self.connected = false then (.err (.notConnected notConnectedMsg), none, self)
  else
    let out := searching self "" LDAP_SCOPE_BASE (some "(objectclass=*)")
      (some rootDSEAttrs) false true 0 0 transport
    (out.1, some out.2, self)

/-- LDAPClient_DelEntryStringDN: requires connected; a NULL dn string skips
the transport entirely and returns success; otherwise ldap_delete_ext_s is
issued (the oracle maps the dn to a result code) and a non-success code
becomes an LDAPError.  The middle component records the dn sent to the
transport, none when no delete was issued. -/
def LDAPClient_DelEntryStringDN (self : LDAPClient) (dnstr : Option String)
    (transport : String → Nat) :
    Except PyError Unit × Option String × LDAPClient :=
  if self.connected = false then (.error (.notConnected notConnectedMsg), none, self)
  else
    match dnstr with
    | none => (.ok (), none, self)
    | some d =>
      let rc := transport d
      if rc ≠ LDAP_SUCCESS then (.error (.ldapError (ldap_err2string rc)), some d, self)
      else (.ok (), some d, self)

/-- LDAPClient_DelEntry: the del_entry method parses its dn argument with
format "s", which never yields NULL, and delegates to
LDAPClient_DelEntryStringDN. -/
def LDAPClient_DelEntry (self : LDAPClient) (dn : String)
    (transport : String → Nat) :
    Except PyError Unit × Option String × LDAPClient :=
  LDAPClient_DelEntryStringDN self (some dn) transport

/-- LDAPClient_Whoami: requires connected; the oracle pair is the result
code and the authzid berval the ldap_whoami_s call fills in.  A zero-length
identity is replaced by the literal string "anonym".  The Bool records
whether the whoami operation was issued to the transport. -/
def LDAPClient_Whoami (self : LDAPClient) (whoResp : Nat × String) :
    Except PyError String × Bool × LDAPClient :=
  if self.connected = false then (.error (.notConnected notConnectedMsg), false, self)
  else
    if whoResp.1 ≠ LDAP_SUCCESS then
      (.error (.ldapError (ldap_err2string whoResp.1)), true, self)
    else if whoResp.2.length = 0 then (.ok "anonym", true, self)
    else (.ok whoResp.2, true, self)

/-- LDAPClient_Close: a no-op success when not connected; otherwise issues
ldap_unbind_ext_s (result code given by the oracle), surfacing a
non-success code as an LDAPError and leaving `connected` set, and clearing
`connected` on success.  The Bool records whether unbind was issued. -/
def LDAPClient_Close (self : LDAPClient) (unbindRc : Nat) :
    Except PyError Unit × Bool × LDAPClient :=
  if self.connected = true then
    if unbindRc ≠ LDAP_SUCCESS then
      (.error (.ldapError (ldap_err2string unbindRc)), true, self)
    else (.ok (), true, { self with connected := false })
  else (.ok (), false, self)

/-- The keyword parameters of LDAPClient_Connect. -/
structure BindParams where
  binddn : Option String
  password : Option String
  mechanism : Option String
  authzid : Option String
  realm : Option String
  authcid : Option String
deriving DecidableEq, Repr

/-- Whether LDAPClient_Connect attempts the StartTLS handshake: the tls flag
is set and ldap_tls_inplace reports no TLS session yet. -/
def tlsAttempted (self : LDAPClient) (tlsInPlace : Bool) : Bool :=
  self.tls && !tlsInPlace

/-- The result code of the bind step of LDAPClient_Connect: presence of a
mechanism selects the SASL interactive bind, otherwise the simple bind. -/
def bindRcOf (p : BindParams) (saslRc simpleRc : Nat) : Nat :=
  match p.mechanism with
  | some _ => saslRc
  | none => simpleRc

/-- LDAPClient_Connect: initializes the transport, optionally performs the
StartTLS handshake (oracle startTlsRc), then exactly one of the SASL or
simple bind (oracle saslRc / simpleRc).  Any non-success code surfaces as an
LDAPError carrying the diagnostic text and leaves the client unchanged; on
success `connected` is set. -/
def LDAPClient_Connect (self : LDAPClient) (p : BindParams) (tlsInPlace : Bool)
    (startTlsRc saslRc simpleRc : Nat) :
    Except PyError Unit × LDAPClient :=
  if tlsAttempted self tlsInPlace = true ∧ startTlsRc ≠ LDAP_SUCCESS then
    (.error (.ldapError (ldap_err2string startTlsRc)), self)
  else
    let rc := bindRcOf p saslRc simpleRc
    if rc ≠ LDAP_SUCCESS then (.error (.ldapError (ldap_err2string rc)), self)
    else (.ok (), { self with connected := true })

/-- The characters of a URI before its first colon, none when the URI holds
no colon at all. -/
def takeUntilColon : List Char → Option (List Char)
  | [] => none
  | c :: rest =>
    if c = ':' then some []
    else
      match takeUntilColon rest with
      | none => none
      | some l => some (c :: l)

/-- Modelled external collaborator: ldap_url_parse of the URL parser, used
by LDAPClient_init only to reject malformed URIs and to read the scheme.
Modelled as requiring a scheme separator; on success it yields the scheme,
the text before the first colon. -/
def ldap_url_parse (uri : String) : Option String :=
  match takeUntilColon uri.data with
  | none => none
  | some l => some (String.mk l)

/-- LDAPClient_init: defaults the uri, reads the requested tls flag, fails on
a malformed uri, stores the uri, clears `connected`, stores the tls flag and
forces it back to false when the scheme is ldaps. -/
def LDAPClient_init (uristr : Option String) (tlsArg : Option Bool) :
    Option LDAPClient :=
  let uri := uristr.getD "ldap://localhost:389/"
  let tls := tlsArg.getD false
  match ldap_url_parse uri with
  | none => none
  | some scheme =>
    some { uri := uri, connected := false,
           tls := if scheme = "ldaps" then false else tls }

/-- Modelled from the spec: the surviving entries of a response stream, in
arrival order — exactly the decoded search-result entries whose attribute
count is nonzero; reference messages and other message types contribute
nothing. -/
def collectSurviving (msgs : List LDAPMessage) : List LDAPEntry :=
  msgs.filterMap fun m =>
    match m with
    | .searchEntry e => if e.attributes.length = 0 then none else some e
    | .searchReference => none
    | .other => none

/-- Modelled from the spec: the first surviving entry of a response stream,
if any. -/
def firstSurviving (msgs : List LDAPMessage) : Option LDAPEntry :=
  (collectSurviving msgs).head?

/-- A connected client used by concrete witnesses. -/
def connClient : LDAPClient :=
  { uri := "ldap://localhost:389/", connected := true, tls := false }

/-- A never-connected client used by concrete witnesses. -/
def discClient : LDAPClient :=
  { uri := "ldap://localhost:389/", connected := false, tls := false }

/-- The collect-all loop produces the accumulated list followed by the
surviving entries of the stream, in order. -/
theorem searchLoop_false_eq (msgs : List LDAPMessage) (acc : List LDAPEntry) :
    searchLoop false msgs acc = .list (acc ++ collectSurviving msgs) := by
  induction msgs generalizing acc with
  | nil => simp [searchLoop, collectSurviving]
  | cons m rest ih =>
    cases m with
    | searchEntry e =>
      by_cases h : e.attributes.length = 0
      · have h2 : e.attributes = [] := List.length_eq_zero.mp h
        simp [searchLoop, collectSurviving, h, h2, ih]
      · have h2 : ¬e.attributes = [] := fun heq => h (by simp [heq])
        simp [searchLoop, collectSurviving, h, h2, ih]
    | searchReference => simp [searchLoop, collectSurviving, ih]
    | other => simp [searchLoop, collectSurviving, ih]

/-- The first-only loop returns the first surviving entry alone when one
exists, and otherwise falls off the stream with the (untouched) accumulated
list. -/
theorem searchLoop_true_eq (msgs : List LDAPMessage) (acc : List LDAPEntry) :
    searchLoop true msgs acc =
      match firstSurviving msgs with
      | some e => .single e
      | none => .list acc := by
  induction msgs generalizing acc with
  | nil => simp [searchLoop, firstSurviving, collectSurviving]
  | cons m rest ih =>
    cases m with
    | searchEntry e =>
      by_cases h : e.attributes.length = 0
      · have h2 : e.attributes = [] := List.length_eq_zero.mp h
        simp [searchLoop, firstSurviving, collectSurviving, h, h2, ih]
      · have h2 : ¬e.attributes = [] := fun heq => h (by simp [heq])
        simp [searchLoop, firstSurviving, collectSurviving, h, h2]
    | searchReference => simp [searchLoop, firstSurviving, collectSurviving, ih]
    | other => simp [searchLoop, firstSurviving, collectSurviving, ih]

/-- Every surviving entry has a nonzero attribute count. -/
theorem collectSurviving_attr_pos (msgs : List LDAPMessage) :
    ∀ e ∈ collectSurviving msgs, e.attributes.length ≠ 0 := by
  intro e he
  simp only [collectSurviving, List.mem_filterMap] at he
  obtain ⟨m, _hm, hf⟩ := he
  cases m with
  | searchEntry e2 =>
    by_cases h : e2.attributes.length = 0
    · have h2 : e2.attributes = [] := List.length_eq_zero.mp h
      simp [h2] at hf
    · have h2 : ¬e2.attributes = [] := fun heq => h (by simp [heq])
      simp [h2] at hf
      subst hf
      exact h
  | searchReference => simp at hf
  | other => simp at hf

/-- A transport answering a success status with a stream holding two entries
with attributes, one entry without, one reference and one other message. -/
def trC1 : SearchRequest → SearchTransportResponse := fun _ =>
  { rc := LDAP_SUCCESS,
    msgs := [.searchEntry ⟨["cn"]⟩, .searchReference, .searchEntry ⟨[]⟩,
             .searchEntry ⟨["sn", "mail"]⟩, .other] }

/-- C1: on a connected session, a collect-all search (firstonly = 0) whose
transport status is success returns exactly the decoded entries with a
nonzero attribute count, as a list in server response arrival order; no
zero-attribute entry appears, and reference messages contribute nothing. -/
theorem C1_collect_all_search (self : LDAPClient) (base : String) (scope : Nat)
    (filterstr : Option String) (attrlist : Option (List String))
    (timeoutArg sizelimitArg : Option Int) (attrsonly : Bool)
    (garbageTimeout garbageSizelimit : Int)
    (transport : SearchRequest → SearchTransportResponse) (req : SearchRequest)
    (hconn : self.connected = true)
    (hreq : (LDAPClient_Search self base scope filterstr attrlist timeoutArg
      sizelimitArg attrsonly garbageTimeout garbageSizelimit transport).2.1 = some req)
    (hrc : (transport req).rc = LDAP_SUCCESS) :
    (LDAPClient_Search self base scope filterstr attrlist timeoutArg
      sizelimitArg attrsonly garbageTimeout garbageSizelimit transport).1
      = .list (collectSurviving (transport req).msgs)
    ∧ ∀ e ∈ collectSurviving (transport req).msgs, e.attributes.length ≠ 0 := by
  have hreq2 : req = searchRequestOf base scope filterstr attrlist attrsonly
      (timeoutArg.getD garbageTimeout) (sizelimitArg.getD garbageSizelimit) := by
    simp [LDAPClient_Search, hconn, searching] at hreq
    exact hreq.symm
  subst hreq2
  refine ⟨?_, collectSurviving_attr_pos _⟩
  simp [LDAPClient_Search, hconn, searching, hrc, LDAP_SUCCESS, LDAP_NO_SUCH_OBJECT,
    searchLoop_false_eq]

/-- C1 witness: a concrete collect-all search keeps the two entries that have
attributes, in arrival order, and drops the attribute-less entry and the
reference. -/
theorem C1_collect_all_search_witness :
    (LDAPClient_Search connClient "dc=example,dc=com" LDAP_SCOPE_SUBTREE none none
      none none false 0 0 trC1).1
      = .list [⟨["cn"]⟩, ⟨["sn", "mail"]⟩] := by
  have h := C1_collect_all_search connClient "dc=example,dc=com" LDAP_SCOPE_SUBTREE
    none none none none false 0 0 trC1
    (searchRequestOf "dc=example,dc=com" LDAP_SCOPE_SUBTREE none none false 0 0)
    rfl rfl rfl
  rw [h.1]
  rfl

/-- A transport reporting LDAP_NO_SUCH_OBJECT to every request. -/
def trNoSuchObject : SearchRequest → SearchTransportResponse := fun _ =>
  { rc := LDAP_NO_SUCH_OBJECT, msgs := [] }

/-- C2: evaluation at the failing input.  When the transport reports no such
object, the collect-all search method returns the bare NULL of `searching`
with no exception set — not the empty list the claim requires — while the
first-only path (get_entry) does map it to Py_None. -/
theorem C2_no_such_object_eval :
    (LDAPClient_Search connClient "ou=missing,dc=example,dc=com" LDAP_SCOPE_SUBTREE
      none none (some 0) (some 0) false 0 0 trNoSuchObject).1 = .nullNoErr
    ∧ SearchingResult.nullNoErr ≠ SearchingResult.list []
    ∧ (LDAPClient_GetEntry connClient "ou=missing,dc=example,dc=com"
        trNoSuchObject).1 = .noneObj := by
  refine ⟨rfl, by decide, rfl⟩

/-- A delete transport failing every delete with result code 1. -/
def trDelFail : String → Nat := fun _ => 1

/-- C3 counterexample: deleting with the empty DN string on a connected
session does issue the delete to the transport (the C code only skips a NULL
pointer, not an empty string), and a failing transport status then surfaces
as an error rather than the claimed unconditional success. -/
theorem C3_counterexample :
    (LDAPClient_DelEntry connClient "" trDelFail).1
        = .error (.ldapError (ldap_err2string 1))
    ∧ (LDAPClient_DelEntry connClient "" trDelFail).2.1 = some "" := ⟨rfl, rfl⟩

/-- C3 amended: on a connected session a NULL (absent) DN is a no-op
success with no transport contact; any string DN — the empty string
included — is sent to the transport, a non-success status surfacing as an
error and success reporting success. -/
theorem C3_del_entry (self : LDAPClient) (d : String) (dtr : String → Nat)
    (hconn : self.connected = true) :
    LDAPClient_DelEntryStringDN self none dtr = (.ok (), none, self)
    ∧ (dtr d ≠ LDAP_SUCCESS →
        LDAPClient_DelEntryStringDN self (some d) dtr
          = (.error (.ldapError (ldap_err2string (dtr d))), some d, self))
    ∧ (dtr d = LDAP_SUCCESS →
        LDAPClient_DelEntryStringDN self (some d) dtr = (.ok (), some d, self)) := by
  refine ⟨?_, ?_, ?_⟩
  · simp [LDAPClient_DelEntryStringDN, hconn]
  · intro h
    simp [LDAPClient_DelEntryStringDN, hconn, h]
  · intro h
    simp [LDAPClient_DelEntryStringDN, hconn, h]

/-- C3 witness: the amended behaviors at concrete inputs — a NULL DN
succeeds without transport contact, and a successful delete of a concrete
DN succeeds. -/
theorem C3_del_entry_witness :
    LDAPClient_DelEntryStringDN connClient none trDelFail = (.ok (), none, connClient)
    ∧ LDAPClient_DelEntryStringDN connClient (some "cn=gone,dc=example,dc=com")
        (fun _ => 0) = (.ok (), some "cn=gone,dc=example,dc=com", connClient) := by
  have h0 := C3_del_entry connClient "cn=gone,dc=example,dc=com" trDelFail rfl
  have h1 := C3_del_entry connClient "cn=gone,dc=example,dc=com" (fun _ => 0) rfl
  exact ⟨h0.1, h1.2.2 rfl⟩

/-- C4: every operation other than connect and construct, invoked while
connected is false, fails with the NotConnected error before any transport
activity (the issued-request / transport-contact component stays empty), and
close, not connected, takes its no-op path without touching the transport. -/
theorem C4_not_connected (self : LDAPClient) (hconn : self.connected = false)
    (dnstr : Option String) (dtr : String → Nat) (dn base : String) (scope : Nat)
    (filterstr : Option String) (attrlist : Option (List String))
    (timeoutArg sizelimitArg : Option Int) (attrsonly : Bool)
    (garbageTimeout garbageSizelimit : Int)
    (tr : SearchRequest → SearchTransportResponse)
    (whoResp : Nat × String) (unbindRc : Nat) :
    LDAPClient_DelEntryStringDN self dnstr dtr
      = (.error (.notConnected notConnectedMsg), none, self)
    ∧ LDAPClient_GetEntry self dn tr
      = (.fail (.notConnected notConnectedMsg), none, self)
    ∧ LDAPClient_GetRootDSE self tr
      = (.err (.notConnected notConnectedMsg), none, self)
    ∧ LDAPClient_Search self base scope filterstr attrlist timeoutArg sizelimitArg
        attrsonly garbageTimeout garbageSizelimit tr
      = (.err (.notConnected notConnectedMsg), none, self)
    ∧ LDAPClient_Whoami self whoResp
      = (.error (.notConnected notConnectedMsg), false, self)
    ∧ LDAPClient_Close self unbindRc = (.ok (), false, self) := by
  refine ⟨?_, ?_, ?_, ?_, ?_, ?_⟩ <;>
    simp [LDAPClient_DelEntryStringDN, LDAPClient_GetEntry, LDAPClient_GetRootDSE,
      LDAPClient_Search, LDAPClient_Whoami, LDAPClient_Close, hconn]

/-- C4 witness: two of the operations at concrete inputs on a never-connected
client fail with NotConnected and leave the transport untouched, and close
is a transport-free no-op success. -/
theorem C4_not_connected_witness :
    LDAPClient_Whoami discClient (0, "cn=admin")
      = (.error (.notConnected notConnectedMsg), false, discClient)
    ∧ LDAPClient_Search discClient "dc=example,dc=com" LDAP_SCOPE_SUBTREE none none
        none none false 0 0 trC1
      = (.err (.notConnected notConnectedMsg), none, discClient)
    ∧ LDAPClient_Close discClient 0 = (.ok (), false, discClient) := by
  have h := C4_not_connected discClient rfl (some "cn=x") trDelFail "cn=x"
    "dc=example,dc=com" LDAP_SCOPE_SUBTREE none none none none false 0 0 trC1
    (0, "cn=admin") 0
  exact ⟨h.2.2.2.2.1, h.2.2.2.1, h.2.2.2.2.2⟩

/-- C5: a session constructed from a URI whose scheme is ldaps has
useStartTLS false after construction, whatever tls flag was requested, and
starts unconnected. -/
theorem C5_ldaps_forces_tls_off (uri : String) (tlsArg : Option Bool)
    (c : LDAPClient) (hscheme : ldap_url_parse uri = some "ldaps")
    (hinit : LDAPClient_init (some uri) tlsArg = some c) :
    c.tls = false ∧ c.connected = false := by
  simp [LDAPClient_init, hscheme] at hinit
  subst hinit
  exact ⟨rfl, rfl⟩

/-- The client a construction from an ldaps URI with tls requested yields. -/
def ldapsClient : LDAPClient :=
  { uri := "ldaps://localhost:636/", connected := false, tls := false }

/-- C5 witness: constructing with an ldaps URI and a requested tls flag of
true yields a client with tls false. -/
theorem C5_ldaps_forces_tls_off_witness :
    ldapsClient.tls = false ∧ ldapsClient.connected = false :=
  C5_ldaps_forces_tls_off "ldaps://localhost:636/" (some true) ldapsClient rfl rfl

/-- C6: starting from an unconnected session, a non-success StartTLS status
(when the handshake is attempted) or a non-success bind status (SASL or
simple alike) surfaces as an error carrying the diagnostic text of that
status and leaves the client with connected false; the resulting client has
connected true exactly when connect returned success. -/
theorem C6_connect (self : LDAPClient) (p : BindParams) (tlsInPlace : Bool)
    (startTlsRc saslRc simpleRc : Nat) (hconn : self.connected = false) :
    (tlsAttempted self tlsInPlace = true → startTlsRc ≠ LDAP_SUCCESS →
      LDAPClient_Connect self p tlsInPlace startTlsRc saslRc simpleRc
        = (.error (.ldapError (ldap_err2string startTlsRc)), self))
    ∧ ((tlsAttempted self tlsInPlace = false ∨ startTlsRc = LDAP_SUCCESS) →
        bindRcOf p saslRc simpleRc ≠ LDAP_SUCCESS →
        LDAPClient_Connect self p tlsInPlace startTlsRc saslRc simpleRc
          = (.error (.ldapError (ldap_err2string (bindRcOf p saslRc simpleRc))), self))
    ∧ ((LDAPClient_Connect self p tlsInPlace startTlsRc saslRc simpleRc).2.connected
          = true
        ↔ (LDAPClient_Connect self p tlsInPlace startTlsRc saslRc simpleRc).1
          = .ok ()) := by
  refine ⟨?_, ?_, ?_⟩
  · intro h1 h2
    simp [LDAPClient_Connect, h1, h2]
  · intro h1 h2
    have hno : ¬(tlsAttempted self tlsInPlace = true ∧ startTlsRc ≠ LDAP_SUCCESS) := by
      rcases h1 with h | h
      · simp [h]
      · simp [h]
    simp [LDAPClient_Connect, hno, h2]
  · by_cases h1 : tlsAttempted self tlsInPlace = true ∧ startTlsRc ≠ LDAP_SUCCESS
    · simp [LDAPClient_Connect, h1, hconn]
    · by_cases h2 : bindRcOf p saslRc simpleRc = LDAP_SUCCESS
      · simp [LDAPClient_Connect, h1, h2]
      · simp [LDAPClient_Connect, h1, h2, hconn]

/-- Anonymous simple-bind connect parameters. -/
def anonParams : BindParams :=
  { binddn := none, password := none, mechanism := none, authzid := none,
    realm := none, authcid := none }

/-- C6 witness: a successful anonymous simple bind leaves the client
connected, and a bind failing with result code 49 surfaces the code-49
diagnostic and leaves the client unconnected. -/
theorem C6_connect_witness :
    (LDAPClient_Connect discClient anonParams false 0 0 0).2.connected = true
    ∧ LDAPClient_Connect discClient anonParams false 0 49 49
        = (.error (.ldapError (ldap_err2string 49)), discClient) := by
  have h0 := C6_connect discClient anonParams false 0 0 0 rfl
  have h1 := C6_connect discClient anonParams false 0 49 49 rfl
  exact ⟨h0.2.2.mpr rfl, h1.2.1 (Or.inr rfl) (by decide)⟩

/-- C7 counterexample: on a connected session, when the search succeeds but
the only entry of the stream has zero attributes — so the stream yields no
surviving entry — get_entry returns the empty list object `searching` built,
not Py_None as the claim states. -/
def trZeroAttrEntry : SearchRequest → SearchTransportResponse := fun _ =>
  { rc := LDAP_SUCCESS, msgs := [.searchEntry ⟨[]⟩] }

/-- C7 counterexample theorem: the concrete run returning the empty list
object rather than Py_None. -/
theorem C7_counterexample :
    (LDAPClient_GetEntry connClient "cn=bare,dc=example,dc=com" trZeroAttrEntry).1
      = .listObj []
    ∧ GetEntryReturn.listObj [] ≠ GetEntryReturn.noneObj := ⟨rfl, by decide⟩

/-- C7 amended: on a connected session get_entry issues a first-only search
with the dn as base, scope BASE and absent filter; a no-such-object status
returns Py_None (not an error); a success status returns the first entry of
the stream with a nonzero attribute count when one exists, and otherwise the
empty list object (not Py_None). -/
theorem C7_get_entry (self : LDAPClient) (dn : String)
    (transport : SearchRequest → SearchTransportResponse) (req : SearchRequest)
    (hconn : self.connected = true)
    (hreq : (LDAPClient_GetEntry self dn transport).2.1 = some req) :
    req.base = dn ∧ req.scope = LDAP_SCOPE_BASE ∧ req.filter = none
    ∧ ((transport req).rc = LDAP_NO_SUCH_OBJECT →
        (LDAPClient_GetEntry self dn transport).1 = .noneObj)
    ∧ ((transport req).rc = LDAP_SUCCESS →
        (LDAPClient_GetEntry self dn transport).1
          = match firstSurviving (transport req).msgs with
            | some e => .entry e
            | none => .listObj []) := by
  have hreq2 : req = searchRequestOf dn LDAP_SCOPE_BASE none none false 0 0 := by
    simp [LDAPClient_GetEntry, hconn, searching] at hreq
    exact hreq.symm
  subst hreq2
  refine ⟨rfl, rfl, rfl, ?_, ?_⟩
  · intro h
    simp [LDAPClient_GetEntry, hconn, searching, h]
  · intro h
    simp only [LDAPClient_GetEntry, hconn, searching, h, LDAP_SUCCESS,
      LDAP_NO_SUCH_OBJECT, searchLoop_true_eq]
    cases hfs : firstSurviving
        (transport (searchRequestOf dn LDAP_SCOPE_BASE none none false 0 0)).msgs <;>
      simp [hfs]

/-- A transport answering one entry that has attributes. -/
def trOneEntry : SearchRequest → SearchTransportResponse := fun _ =>
  { rc := LDAP_SUCCESS, msgs := [.searchEntry ⟨["cn", "objectClass"]⟩] }

/-- C7 witness: on a concrete run whose stream holds one entry with
attributes, get_entry returns that entry. -/
theorem C7_get_entry_witness :
    (LDAPClient_GetEntry connClient "cn=admin,dc=example,dc=com" trOneEntry).1
      = .entry ⟨["cn", "objectClass"]⟩ := by
  have h := C7_get_entry connClient "cn=admin,dc=example,dc=com" trOneEntry
    (searchRequestOf "cn=admin,dc=example,dc=com" LDAP_SCOPE_BASE none none false 0 0)
    rfl rfl
  have h5 := h.2.2.2.2 rfl
  rw [h5]
  rfl

/-- C8: on a connected session, whoami returns the server-reported identity
when it is nonempty, returns exactly the literal string "anonym" when the
identity response is empty, and surfaces a non-success status as an error
carrying the diagnostic text. -/
theorem C8_whoami (self : LDAPClient) (rc : Nat) (ident : String)
    (hconn : self.connected = true) :
    (rc = LDAP_SUCCESS → ident.length ≠ 0 →
      LDAPClient_Whoami self (rc, ident) = (.ok ident, true, self))
    ∧ (rc = LDAP_SUCCESS → ident.length = 0 →
      LDAPClient_Whoami self (rc, ident) = (.ok "anonym", true, self))
    ∧ (rc ≠ LDAP_SUCCESS →
      LDAPClient_Whoami self (rc, ident)
        = (.error (.ldapError (ldap_err2string rc)), true, self)) := by
  refine ⟨?_, ?_, ?_⟩
  · intro h1 h2
    simp [LDAPClient_Whoami, hconn, h1, h2]
  · intro h1 h2
    simp [LDAPClient_Whoami, hconn, h1, h2]
  · intro h1
    simp [LDAPClient_Whoami, hconn, h1]

/-- C8 witness: an empty identity (anonymous bind) yields "anonym", and a
nonempty identity is returned as reported. -/
theorem C8_whoami_witness :
    LDAPClient_Whoami connClient (0, "") = (.ok "anonym", true, connClient)
    ∧ LDAPClient_Whoami connClient (0, "dn:cn=admin,dc=example,dc=com")
        = (.ok "dn:cn=admin,dc=example,dc=com", true, connClient) := by
  have h0 := C8_whoami connClient 0 "" rfl
  have h1 := C8_whoami connClient 0 "dn:cn=admin,dc=example,dc=com" rfl
  exact ⟨h0.2.1 rfl rfl, h1.1 rfl (by decide)⟩

/-- A transport answering success with an empty stream, used to observe the
issued request. -/
def trEmptyOk : SearchRequest → SearchTransportResponse := fun _ =>
  { rc := LDAP_SUCCESS, msgs := [] }

/-- C9: evaluation at the failing input.  An empty filter string is issued
as absent and an explicit timeout of 0 and sizeLimit of 0 are issued as no
limit, but when the timeout and sizeLimit arguments are omitted the
uninitialized C locals (indeterminate stack values, here 7 and 9) are
issued as a 7-second time limit and a size limit of 9 — not "no limit" as
the claim states; a positive explicit timeout of 30 is issued as a
30-second limit. -/
theorem C9_limits_eval :
    (LDAPClient_Search connClient "dc=example,dc=com" LDAP_SCOPE_SUBTREE (some "")
      none none none false 7 9 trEmptyOk).2.1
      = some { base := "dc=example,dc=com", scope := LDAP_SCOPE_SUBTREE,
               filter := none, attrs := none, attrsonly := false,
               timelimit := some 7, sizelimit := 9 }
    ∧ (LDAPClient_Search connClient "dc=example,dc=com" LDAP_SCOPE_SUBTREE (some "")
      none (some 0) (some 0) false 7 9 trEmptyOk).2.1
      = some { base := "dc=example,dc=com", scope := LDAP_SCOPE_SUBTREE,
               filter := none, attrs := none, attrsonly := false,
               timelimit := none, sizelimit := 0 }
    ∧ (LDAPClient_Search connClient "dc=example,dc=com" LDAP_SCOPE_SUBTREE (some "")
      none (some 30) (some 0) false 7 9 trEmptyOk).2.1
      = some { base := "dc=example,dc=com", scope := LDAP_SCOPE_SUBTREE,
               filter := none, attrs := none, attrsonly := false,
               timelimit := some 30, sizelimit := 0 } := ⟨rfl, rfl, rfl⟩

/-- C10: search, get_entry, get_rootDSE, delete and whoami return the client
state unchanged in every field, on success and on error alike; connect
leaves the state unchanged except for setting connected to true when the
whole sequence succeeds, and close leaves it unchanged except for clearing
connected when a connected client unbinds successfully. -/
theorem C10_frame (self : LDAPClient) (base dn : String) (scope : Nat)
    (filterstr : Option String) (attrlist : Option (List String))
    (timeoutArg sizelimitArg : Option Int) (attrsonly : Bool)
    (garbageTimeout garbageSizelimit : Int)
    (tr : SearchRequest → SearchTransportResponse)
    (dnstr : Option String) (dtr : String → Nat) (whoResp : Nat × String)
    (p : BindParams) (tlsInPlace : Bool) (startTlsRc saslRc simpleRc unbindRc : Nat) :
    (LDAPClient_Search self base scope filterstr attrlist timeoutArg sizelimitArg
      attrsonly garbageTimeout garbageSizelimit tr).2.2 = self
    ∧ (LDAPClient_GetEntry self dn tr).2.2 = self
    ∧ (LDAPClient_GetRootDSE self tr).2.2 = self
    ∧ (LDAPClient_DelEntryStringDN self dnstr dtr).2.2 = self
    ∧ (LDAPClient_Whoami self whoResp).2.2 = self
    ∧ (LDAPClient_Connect self p tlsInPlace startTlsRc saslRc simpleRc).2
        = (if tlsAttempted self tlsInPlace = true ∧ startTlsRc ≠ LDAP_SUCCESS then self
           else if bindRcOf p saslRc simpleRc ≠ LDAP_SUCCESS then self
           else { self with connected := true })
    ∧ (LDAPClient_Close self unbindRc).2.2
        = (if self.connected = true ∧ unbindRc = LDAP_SUCCESS
           then { self with connected := false } else self) := by
  refine ⟨?_, ?_, ?_, ?_, ?_, ?_, ?_⟩
  · cases h : self.connected <;> simp [LDAPClient_Search, h]
  · cases h : self.connected <;> simp [LDAPClient_GetEntry, h]
  · cases h : self.connected <;> simp [LDAPClient_GetRootDSE, h]
  · cases h : self.connected
    · simp [LDAPClient_DelEntryStringDN, h]
    · cases dnstr with
      | none => simp [LDAPClient_DelEntryStringDN, h]
      | some d =>
        by_cases h2 : dtr d = LDAP_SUCCESS <;>
          simp [LDAPClient_DelEntryStringDN, h, h2]
  · cases h : self.connected
    · simp [LDAPClient_Whoami, h]
    · by_cases h1 : whoResp.1 = LDAP_SUCCESS
      · by_cases h2 : whoResp.2.length = 0 <;> simp [LDAPClient_Whoami, h, h1, h2]
      · simp [LDAPClient_Whoami, h, h1]
  · by_cases h1 : tlsAttempted self tlsInPlace = true ∧ startTlsRc ≠ LDAP_SUCCESS
    · simp [LDAPClient_Connect, h1]
    · by_cases h2 : bindRcOf p saslRc simpleRc = LDAP_SUCCESS
      · simp [LDAPClient_Connect, h1, h2]
      · simp [LDAPClient_Connect, h1, h2]
  · by_cases h1 : self.connected = true
    · by_cases h2 : unbindRc = LDAP_SUCCESS
      · simp [LDAPClient_Close, h1, h2]
      · simp [LDAPClient_Close, h1, h2]
    · simp [LDAPClient_Close, h1]
